import Mathlib

/-!
Shallow embedding of `src/edp_redy/session.py` (class `EdpRedySession`).

The Python code drives an `aiohttp` client against the EDP re:dy portal.  We
model the network as an oracle `Env : HttpReq → HttpOutcome` giving the
outcome of each request a call may issue, and every `async_*` coroutine as a
pure function from the oracle, the wall-clock instants it samples, and the
object state to a result, the updated state, and the list of HTTP requests it
issued (in order).  Timestamps are integers (seconds, `datetime.utcnow`);
JSON numbers are rationals.  A Python exception that the code does not catch
is an `Except.error` result.
-/

namespace EdpRedy

/-- A JSON value as produced by `json.loads`: `None`, `bool`, a number,
`str`, `list`, `dict` (an association list of string keys). -/
inductive Json where
  | null : Json
  | bool : Bool → Json
  | num : ℚ → Json
  | str : String → Json
  | arr : List Json → Json
  | obj : List (String × Json) → Json

/-- The Python exception classes the embedded code can raise (beyond the
transport errors, which every operation catches at its request site). -/
inductive PyError where
  | typeError : PyError
  | keyError : String → PyError
  | valueError : PyError
deriving DecidableEq

/-- A hashable JSON value: the values Python accepts as `dict` keys
(`list` and `dict` are unhashable).  Used as the key type of
`modules_dict`, which the code indexes by `module['PKID']`. -/
inductive HKey where
  | null : HKey
  | bool : Bool → HKey
  | num : ℚ → HKey
  | str : String → HKey
deriving DecidableEq

/-- `dict` keys must be hashable; converting an unhashable value raises
`TypeError`. -/
def Json.toHKey : Json → Except PyError HKey
  | .null => .ok .null
  | .bool b => .ok (.bool b)
  | .num q => .ok (.num q)
  | .str s => .ok (.str s)
  | .arr _ => .error .typeError
  | .obj _ => .error .typeError

/-- Python `element == k` for a JSON element against a `str` `k`: only a
`str` with the same characters compares equal. -/
def Json.pyEqStr (j : Json) (k : String) : Bool :=
  match j with
  | .str s => s = k
  | _ => false

/-- `pat.isPrefixOf l` over characters, for the substring test below. -/
def charsHaveInfix (pat : List Char) : List Char → Bool
  | [] => pat.isEmpty
  | a :: rest => pat.isPrefixOf (a :: rest) || charsHaveInfix pat rest

/-- Python `k in j` for a string `k`: key lookup on a `dict`, element
equality on a `list`, substring test on a `str`; `TypeError` ("argument of
type ... is not iterable") on `None`, `bool`, numbers. -/
def Json.containsStr : Json → String → Except PyError Bool
  | .obj kvs, k => .ok (kvs.any (fun kv => kv.1 = k))
  | .arr l, k => .ok (l.any (fun j => j.pyEqStr k))
  | .str s, k => .ok (charsHaveInfix k.data s.data)
  | .null, _ => .error .typeError
  | .bool _, _ => .error .typeError
  | .num _, _ => .error .typeError

/-- Python `j[k]` for a string `k`: `dict` lookup (`KeyError` when the key
is absent); `TypeError` on a `list` or `str` (indices must be integers) and
on non-subscriptable values. -/
def Json.subscript : Json → String → Except PyError Json
  | .obj kvs, k =>
    match kvs.find? (fun kv => kv.1 = k) with
    | some kv => .ok kv.2
    | none => .error (.keyError k)
  | _, _ => .error .typeError

/-- Python `for x in j`: a `list` yields its elements, a `str` its
characters (as one-character strings), a `dict` its keys; `None`, `bool`
and numbers are not iterable (`TypeError`). -/
def Json.pyIter : Json → Except PyError (List Json)
  | .arr l => .ok l
  | .str s => .ok (s.data.map (fun c => Json.str (String.mk [c])))
  | .obj kvs => .ok (kvs.map (fun kv => Json.str kv.1))
  | .null => .error .typeError
  | .bool _ => .error .typeError
  | .num _ => .error .typeError

/-- Python `v * 1000` on a JSON-decoded `v` (`session.py` line 146):
numbers scale, `True`/`False` behave as `1`/`0`, a `str` or `list` is
repeated 1000 times, and `None` or a `dict` raise `TypeError`.  No input
raises `ValueError`. -/
def pyMul1000 : Json → Except PyError Json
  | .num q => .ok (.num (q * 1000))
  | .bool b => .ok (.num ((if b then 1 else 0) * 1000))
  | .str s => .ok (.str (String.join (List.replicate 1000 s)))
  | .arr l => .ok (.arr (List.flatten (List.replicate 1000 l)))
  | .null => .error .typeError
  | .obj _ => .error .typeError

/-- The requests `session.py` can issue, identified by endpoint. -/
inductive HttpReq where
  | getLoginPage : HttpReq
  | postLogin : HttpReq
  | getLogout : HttpReq
  | postActivePower : HttpReq
  | postSwitchModules : HttpReq
  | postSetStateVar : Json → HttpReq

/-- The outcome of one HTTP exchange: a transport failure
(`asyncio.TimeoutError` / `aiohttp.ClientError`), or a response with a
status code and a body.  The body is the JSON value `json.loads` yields
from the response text, or `none` when the text is not valid JSON. -/
inductive HttpOutcome where
  | err : HttpOutcome
  | ok : Nat → Option Json → HttpOutcome

/-- The server oracle for one call: the outcome each request would get. -/
def Env : Type := HttpReq → HttpOutcome

/-- Data/command requests, as opposed to the session-management requests
(login page, login post, logout) that `async_validate_session` issues. -/
def HttpReq.isDataRequest : HttpReq → Bool
  | .postActivePower => true
  | .postSwitchModules => true
  | .postSetStateVar _ => true
  | _ => false

/-- `SESSION_TIME` (seconds): a session this old or older is renewed. -/
def SESSION_TIME : ℤ := 59

/-- `ACTIVE_POWER_ID`, the fixed key of the power metric in `values_dict`. -/
def ACTIVE_POWER_ID : String := "home_active_power"

/-- The mutable fields of an `EdpRedySession` object: `_session` (the
handle; the code always stores the one `aiohttp` client, so the handle
carries no data and only its presence matters), `_session_time`, and the
two result dictionaries.  `values_dict` stores JSON values (`Json.null`
models a stored Python `None`); `modules_dict` is keyed by the hashable
JSON value `module['PKID']`. -/
structure EdpRedySession where
  session : Option Unit
  session_time : ℤ
  modules_dict : HKey → Option Json
  values_dict : String → Option Json

/-- `async_init_session`: fetch the login page, then POST the credentials
form.  A transport error or a non-200 status at either step yields `none`
(no session); otherwise the session handle is returned.  The second
component lists the requests issued. -/
def async_init_session (env : Env) : Option Unit × List HttpReq :=
  match env HttpReq.getLoginPage with
  | .err => (none, [HttpReq.getLoginPage])
  | .ok status _ =>
    if status ≠ 200 then (none, [HttpReq.getLoginPage])
    else
      match env HttpReq.postLogin with
      | .err => (none, [HttpReq.getLoginPage, HttpReq.postLogin])
      | .ok status2 _ =>
        if status2 ≠ 200 then (none, [HttpReq.getLoginPage, HttpReq.postLogin])
        else (some (), [HttpReq.getLoginPage, HttpReq.postLogin])

/-- `async_logout`: one GET to the logout endpoint; `false` on transport
error or non-200 status, `true` otherwise. -/
def async_logout (env : Env) : Bool × List HttpReq :=
  match env HttpReq.getLogout with
  | .err => (false, [HttpReq.getLogout])
  | .ok status _ => (status = 200, [HttpReq.getLogout])

/-- `async_validate_session`.  `now1` is the `utcnow()` sampled for the
age check, `now2` the one stored as the new `_session_time` on the login
path.  With a session younger than `SESSION_TIME` it returns `True` at
once; otherwise it logs out (outcome ignored), drops the handle, runs
`async_init_session`, stores its result and the fresh timestamp, and
returns whether a session now exists. -/
def async_validate_session (env : Env) (now1 now2 : ℤ) (st : EdpRedySession) :
    Bool × EdpRedySession × List HttpReq :=
  match st.session with
  | some _ =>
    if now1 - st.session_time < SESSION_TIME then
      (true, st, [])
    else
      let tr1 := (async_logout env).2
      let s := async_init_session env
      (s.1.isSome, { st with session := s.1, session_time := now2 }, tr1 ++ s.2)
  | none =>
    let s := async_init_session env
    (s.1.isSome, { st with session := s.1, session_time := now2 }, s.2)

/-- The field extraction both fetches perform on the decoded body
`updated`: `if "Body" not in updated: return False`, then
`if field not in updated["Body"]: return False`, then `updated["Body"][field]`.
`ok none` models the `return False` of a failed membership test; an
`error` is an uncaught `TypeError` from a membership test or subscript on
an unsuitable value. -/
def extractBodyField (field : String) (updated : Json) : Except PyError (Option Json) :=
  match updated.containsStr "Body" with
  | .error e => .error e
  | .ok false => .ok none
  | .ok true =>
    match updated.subscript "Body" with
    | .error e => .error e
    | .ok bodyJ =>
      match bodyJ.containsStr field with
      | .error e => .error e
      | .ok false => .ok none
      | .ok true =>
        match bodyJ.subscript field with
        | .error e => .error e
        | .ok v => .ok (some v)

/-- Store under a key of `values_dict`. -/
def setValue (k : String) (v : Json) (d : String → Option Json) :
    String → Option Json :=
  fun k2 => if k2 = k then some v else d k2

/-- `async_fetch_active_power`: validate, POST to the power endpoint,
check status, decode, extract `Body.ActivePower`, store `value * 1000`
under `ACTIVE_POWER_ID`.  The `except ValueError` around the store keeps
the fetch successful with `values_dict[ACTIVE_POWER_ID] = None`; any other
exception from the conversion propagates. -/
def async_fetch_active_power (env : Env) (now1 now2 : ℤ) (st : EdpRedySession) :
    Except PyError Bool × EdpRedySession × List HttpReq :=
  match async_validate_session env now1 now2 st with
  | (false, st1, tr) => (.ok false, st1, tr)
  | (true, st1, tr) =>
    let tr := tr ++ [HttpReq.postActivePower]
    match env HttpReq.postActivePower with
    | .err => (.ok false, st1, tr)
    | .ok status body =>
      if status ≠ 200 then (.ok false, st1, tr)
      else
        match body with
        | none => (.ok false, st1, tr)
        | some updated =>
          match extractBodyField "ActivePower" updated with
          | .error e => (.error e, st1, tr)
          | .ok none => (.ok false, st1, tr)
          | .ok (some ap) =>
            match pyMul1000 ap with
            | .ok v =>
              (.ok true, { st1 with values_dict := setValue ACTIVE_POWER_ID v st1.values_dict }, tr)
            | .error .valueError =>
              (.ok true, { st1 with values_dict := setValue ACTIVE_POWER_ID Json.null st1.values_dict }, tr)
            | .error e => (.error e, st1, tr)

/-- `module['PKID']` followed by its use as a `dict` key: `KeyError` when
the field is missing, `TypeError` when `module` is not a `dict` (or the
key is unhashable). -/
def pkidOf (m : Json) : Except PyError HKey :=
  match m.subscript "PKID" with
  | .error e => .error e
  | .ok k => k.toHKey

/-- Overwrite one key of `modules_dict`. -/
def insertModule (k : HKey) (v : Json) (d : HKey → Option Json) :
    HKey → Option Json :=
  fun k2 => if k2 = k then some v else d k2

/-- The loop `for module in ...: self.modules_dict[module['PKID']] = module`.
It stops at the first module whose `PKID` extraction or hashing raises,
returning the dictionary as updated so far together with that error. -/
def updateModules : List Json → (HKey → Option Json) → (HKey → Option Json) × Option PyError
  | [], d => (d, none)
  | m :: ms, d =>
    match pkidOf m with
    | .error e => (d, some e)
    | .ok k => updateModules ms (insertModule k m d)

/-- `async_fetch_modules`: validate, POST to the modules endpoint, check
status, decode, extract `Body.Modules`, iterate it and store each module
under its `PKID`. -/
def async_fetch_modules (env : Env) (now1 now2 : ℤ) (st : EdpRedySession) :
    Except PyError Bool × EdpRedySession × List HttpReq :=
  match async_validate_session env now1 now2 st with
  | (false, st1, tr) => (.ok false, st1, tr)
  | (true, st1, tr) =>
    let tr := tr ++ [HttpReq.postSwitchModules]
    match env HttpReq.postSwitchModules with
    | .err => (.ok false, st1, tr)
    | .ok status body =>
      if status ≠ 200 then (.ok false, st1, tr)
      else
        match body with
        | none => (.ok false, st1, tr)
        | some updated =>
          match extractBodyField "Modules" updated with
          | .error e => (.error e, st1, tr)
          | .ok none => (.ok false, st1, tr)
          | .ok (some mods) =>
            match mods.pyIter with
            | .error e => (.error e, st1, tr)
            | .ok ms =>
              match updateModules ms st1.modules_dict with
              | (d, some e) => (.error e, { st1 with modules_dict := d }, tr)
              | (d, none) => (.ok true, { st1 with modules_dict := d }, tr)

/-- `async_update`: `async_fetch_modules` then `async_fetch_active_power`,
returning the conjunction of their results; an exception in either
propagates (and skips the power fetch when the module fetch raised). -/
def async_update (env : Env) (t1 t2 t3 t4 : ℤ) (st : EdpRedySession) :
    Except PyError Bool × EdpRedySession × List HttpReq :=
  match async_fetch_modules env t1 t2 st with
  | (.error e, st1, tr) => (.error e, st1, tr)
  | (.ok m, st1, tr) =>
    match async_fetch_active_power env t3 t4 st1 with
    | (.error e, st2, tr2) => (.error e, st2, tr ++ tr2)
    | (.ok p, st2, tr2) => (.ok (m && p), st2, tr ++ tr2)

/-- `async_set_state_var`: validate, POST the caller's JSON payload to the
command endpoint, succeed iff the status is 200; the body is not read. -/
def async_set_state_var (env : Env) (now1 now2 : ℤ) (payload : Json) (st : EdpRedySession) :
    Except PyError Bool × EdpRedySession × List HttpReq :=
  match async_validate_session env now1 now2 st with
  | (false, st1, tr) => (.ok false, st1, tr)
  | (true, st1, tr) =>
    let tr := tr ++ [HttpReq.postSetStateVar payload]
    match env (HttpReq.postSetStateVar payload) with
    | .err => (.ok false, st1, tr)
    | .ok status _ =>
      if status ≠ 200 then (.ok false, st1, tr) else (.ok true, st1, tr)

/-! ### Concrete fixtures used by witnesses and counterexamples -/

/-- An empty `modules_dict`. -/
def emptyModulesDict : HKey → Option Json := fun _ => none

/-- An empty `values_dict`. -/
def emptyValuesDict : String → Option Json := fun _ => none

/-- A state holding a session created at time 0 and empty dictionaries. -/
def stFresh : EdpRedySession :=
  { session := some (), session_time := 0,
    modules_dict := emptyModulesDict, values_dict := emptyValuesDict }

/-- A state with no session (as after construction). -/
def stNoSession : EdpRedySession := { stFresh with session := none }

/-- A server that answers every request with status 200 and a non-JSON body. -/
def envAllOk : Env := fun _ => HttpOutcome.ok 200 none

/-- A server on which every request fails at the transport level. -/
def envAllErr : Env := fun _ => HttpOutcome.err

/-- The JSON value `{"Body": {field: v}}`. -/
def bodyWith (field : String) (v : Json) : Json :=
  Json.obj [("Body", Json.obj [(field, v)])]

/-- A server answering the power endpoint with status 200 and body `b`,
and everything else (in particular the login handshake) with 200. -/
def envPowerBody (b : Option Json) : Env := fun r =>
  match r with
  | HttpReq.postActivePower => HttpOutcome.ok 200 b
  | _ => HttpOutcome.ok 200 none

/-- A server answering the modules endpoint with status 200 and body `b`,
and everything else with 200. -/
def envModulesBody (b : Option Json) : Env := fun r =>
  match r with
  | HttpReq.postSwitchModules => HttpOutcome.ok 200 b
  | _ => HttpOutcome.ok 200 none

/-- A server on which the modules fetch succeeds (an empty module list)
while the power request fails at the transport level. -/
def envC3 : Env := fun r =>
  match r with
  | HttpReq.postActivePower => HttpOutcome.err
  | HttpReq.postSwitchModules => HttpOutcome.ok 200 (some (bodyWith "Modules" (Json.arr [])))
  | _ => HttpOutcome.ok 200 none

/-- Module `"A"`, first version. -/
def modA : Json := Json.obj [("PKID", Json.str "A"), ("State", Json.num 0)]

/-- Module `"B"`. -/
def modB : Json := Json.obj [("PKID", Json.str "B"), ("State", Json.num 1)]

/-- Module `"A"`, updated fields. -/
def modA2 : Json := Json.obj [("PKID", Json.str "A"), ("State", Json.num 7)]

/-- A server whose power response decodes to `{"Body": 5}`: well-formed
JSON in which `Body.ActivePower` does not exist. -/
def envBadPower : Env := fun r =>
  match r with
  | HttpReq.postActivePower => HttpOutcome.ok 200 (some (Json.obj [("Body", Json.num 5)]))
  | _ => HttpOutcome.ok 200 none

/-- A server whose power response decodes to
`{"Body": {"ActivePower": null}}`. -/
def envNullPower : Env := fun r =>
  match r with
  | HttpReq.postActivePower => HttpOutcome.ok 200 (some (bodyWith "ActivePower" Json.null))
  | _ => HttpOutcome.ok 200 none

/-- A server whose power response decodes to
`{"Body": {"ActivePower": 1.5}}`. -/
def envPower15 : Env := fun r =>
  match r with
  | HttpReq.postActivePower => HttpOutcome.ok 200 (some (bodyWith "ActivePower" (Json.num (3 / 2))))
  | _ => HttpOutcome.ok 200 none

/-- A server whose power response decodes to
`{"Body": {"ActivePower": 2}}`. -/
def envPower2 : Env := fun r =>
  match r with
  | HttpReq.postActivePower => HttpOutcome.ok 200 (some (bodyWith "ActivePower" (Json.num 2)))
  | _ => HttpOutcome.ok 200 none

/-- A server whose modules response holds modules `"A"` and `"B"`. -/
def envModsAB : Env := envModulesBody (some (bodyWith "Modules" (Json.arr [modA, modB])))

/-- A server whose modules response holds only the updated module `"A"`. -/
def envModsA2 : Env := envModulesBody (some (bodyWith "Modules" (Json.arr [modA2])))

/-- The state after fetching modules `"A"` and `"B"` from scratch. -/
def stAfterAB : EdpRedySession := (async_fetch_modules envModsAB 0 0 stNoSession).2.1

/-- The state after then fetching only the updated module `"A"`. -/
def stAfterA2 : EdpRedySession := (async_fetch_modules envModsA2 10 10 stAfterAB).2.1

/-! ### Helper functions for reasoning about the module-map update -/

/-- The `(PKID, module)` pairs the update loop inserts before its first
erroring element (all of them when no element errors). -/
def goodPairs : List Json → List (HKey × Json)
  | [] => []
  | m :: ms =>
    match pkidOf m with
    | .error _ => []
    | .ok k => (k, m) :: goodPairs ms

/-- Insert a list of key/module pairs in order. -/
def applyPairs (ps : List (HKey × Json)) (d : HKey → Option Json) : HKey → Option Json :=
  ps.foldl (fun acc p => insertModule p.1 p.2 acc) d

/-- The value the last pair with key `k` carries, if any. -/
def lastVal (ps : List (HKey × Json)) (k : HKey) : Option Json :=
  match ps with
  | [] => none
  | p :: rest =>
    match lastVal rest k with
    | some v => some v
    | none => if k = p.1 then some p.2 else none

/-- The last module of `ms` whose `PKID` extracts to `k`, if any. -/
def lastModule (ms : List Json) (k : HKey) : Option Json :=
  match ms with
  | [] => none
  | m :: rest =>
    match lastModule rest k with
    | some v => some v
    | none =>
      match pkidOf m with
      | .ok k2 => if k2 = k then some m else none
      | .error _ => none

/-! ### Basic lemmas about the session machinery -/

theorem async_logout_trace (env : Env) : (async_logout env).2 = [HttpReq.getLogout] := by
  unfold async_logout
  cases env HttpReq.getLogout <;> rfl

theorem async_init_session_trace (env : Env) :
    (async_init_session env).2 = [HttpReq.getLoginPage] ∨
    (async_init_session env).2 = [HttpReq.getLoginPage, HttpReq.postLogin] := by
  cases h : env HttpReq.getLoginPage with
  | err => left; simp [async_init_session, h]
  | ok s b =>
    by_cases hs : s = 200
    · cases h2 : env HttpReq.postLogin with
      | err => right; simp [async_init_session, h, h2, hs]
      | ok s2 b2 =>
        right
        by_cases hs2 : s2 = 200 <;> simp [async_init_session, h, h2, hs, hs2]
    · left; simp [async_init_session, h, hs]

/-- Every run of `async_validate_session` either takes the fast path
(session present and young: success, unchanged state, no request) or the
login path: the result is whether `async_init_session` produced a handle,
the handle and timestamp are replaced, and the trace is the login
handshake, preceded by the logout request exactly when a (stale) session
was present. -/
theorem async_validate_session_cases (env : Env) (now1 now2 : ℤ) (st : EdpRedySession) :
    ((∃ u, st.session = some u) ∧ now1 - st.session_time < SESSION_TIME ∧
      async_validate_session env now1 now2 st = (true, st, [])) ∨
    ((st.session = none ∨ SESSION_TIME ≤ now1 - st.session_time) ∧
      async_validate_session env now1 now2 st =
        ((async_init_session env).1.isSome,
         { st with session := (async_init_session env).1, session_time := now2 },
         (if st.session = none then ([] : List HttpReq) else [HttpReq.getLogout]) ++
           (async_init_session env).2)) := by
  cases hs : st.session with
  | none =>
    right
    refine ⟨Or.inl rfl, ?_⟩
    simp [async_validate_session, hs]
  | some u =>
    by_cases ht : now1 - st.session_time < SESSION_TIME
    · left
      refine ⟨⟨u, rfl⟩, ht, ?_⟩
      simp [async_validate_session, hs, ht]
    · right
      refine ⟨Or.inr (not_lt.mp ht), ?_⟩
      simp [async_validate_session, hs, ht, async_logout_trace, hs]

theorem async_validate_session_preserves_dicts (env : Env) (now1 now2 : ℤ)
    (st : EdpRedySession) :
    (async_validate_session env now1 now2 st).2.1.modules_dict = st.modules_dict ∧
    (async_validate_session env now1 now2 st).2.1.values_dict = st.values_dict := by
  rcases async_validate_session_cases env now1 now2 st with ⟨_, _, h⟩ | ⟨_, h⟩ <;>
    rw [h] <;> exact ⟨rfl, rfl⟩

/-- Claim C2: `async_validate_session` on a session strictly younger than
`SESSION_TIME` returns `True` immediately, with no state change and no
request; on a session at or past the threshold it issues the logout
request first (whatever its outcome — `env` is arbitrary), discards the
old handle, runs the full login handshake, and succeeds exactly when that
handshake produced a session. -/
theorem C2_validate_fast_path_and_renewal (env : Env) (now1 now2 : ℤ)
    (st : EdpRedySession) (u : Unit) (hs : st.session = some u) :
    (now1 - st.session_time < SESSION_TIME →
      async_validate_session env now1 now2 st = (true, st, [])) ∧
    (SESSION_TIME ≤ now1 - st.session_time →
      async_validate_session env now1 now2 st =
        ((async_init_session env).1.isSome,
         { st with session := (async_init_session env).1, session_time := now2 },
         HttpReq.getLogout :: (async_init_session env).2)) := by
  constructor
  · intro ht
    simp [async_validate_session, hs, ht]
  · intro ht
    simp [async_validate_session, hs, not_lt.mpr ht, async_logout_trace]

/-- Witness for C2: age 58 (= threshold − 1) gives the fast path; age 60
(= threshold + 1) gives logout followed by the two login-handshake
requests, with the clock reset to the new instant 61. -/
theorem C2_validate_witness :
    async_validate_session envAllOk 58 58 stFresh = (true, stFresh, []) ∧
    async_validate_session envAllOk 60 61 stFresh =
      (true, { stFresh with session := some (), session_time := 61 },
       [HttpReq.getLogout, HttpReq.getLoginPage, HttpReq.postLogin]) := by
  constructor
  · exact (C2_validate_fast_path_and_renewal envAllOk 58 58 stFresh () rfl).1 (by decide)
  · exact (C2_validate_fast_path_and_renewal envAllOk 60 61 stFresh () rfl).2 (by decide)

/-- Claim C10: whenever `async_validate_session` takes the login path (no
session, or session at/past the threshold), `_session_time` is set to the
current time whether or not the login succeeds (`env` is arbitrary). -/
theorem C10_clock_reset_on_login_path (env : Env) (now1 now2 : ℤ) (st : EdpRedySession)
    (h : st.session = none ∨ SESSION_TIME ≤ now1 - st.session_time) :
    (async_validate_session env now1 now2 st).2.1.session_time = now2 := by
  rcases async_validate_session_cases env now1 now2 st with ⟨⟨u, hsu⟩, ht, _⟩ | ⟨_, hv⟩
  · rcases h with h | h
    · rw [hsu] at h; cases h
    · exact absurd ht (not_lt.mpr h)
  · rw [hv]

/-- Witness for C10: from an expired session, the clock is reset both when
every login request fails and when the login succeeds. -/
theorem C10_clock_reset_witness :
    (async_validate_session envAllErr 60 77 stFresh).2.1.session_time = 77 ∧
    (async_validate_session envAllOk 60 78 stFresh).2.1.session_time = 78 :=
  ⟨C10_clock_reset_on_login_path envAllErr 60 77 stFresh (Or.inr (by decide)),
   C10_clock_reset_on_login_path envAllOk 60 78 stFresh (Or.inr (by decide))⟩

/-- Claim C9: when the login handshake fails (no handle produced) and
`async_validate_session` takes the login path, the call returns `False`
and leaves no session handle; from the resulting state, any later
`async_validate_session` call runs the login handshake from scratch — its
result is exactly whether that fresh handshake succeeds and its trace is
exactly the fresh handshake's requests.  The manager is never permanently
broken. -/
theorem C9_login_failure_is_not_terminal (env : Env) (now1 now2 : ℤ)
    (st : EdpRedySession)
    (hpath : st.session = none ∨ SESSION_TIME ≤ now1 - st.session_time)
    (hfail : (async_init_session env).1 = none) :
    (async_validate_session env now1 now2 st).1 = false ∧
    (async_validate_session env now1 now2 st).2.1.session = none ∧
    (∀ (env2 : Env) (m1 m2 : ℤ),
      (async_validate_session env2 m1 m2
          (async_validate_session env now1 now2 st).2.1).1 =
        (async_init_session env2).1.isSome ∧
      (async_validate_session env2 m1 m2
          (async_validate_session env now1 now2 st).2.1).2.2 =
        (async_init_session env2).2) := by
  rcases async_validate_session_cases env now1 now2 st with ⟨⟨u, hsu⟩, ht, _⟩ | ⟨_, hv⟩
  · rcases hpath with h | h
    · rw [hsu] at h; cases h
    · exact absurd ht (not_lt.mpr h)
  · rw [hv]
    refine ⟨by simp [hfail], by simp [hfail], ?_⟩
    intro env2 m1 m2
    constructor <;> simp [async_validate_session, hfail]

/-- Witness for C9: with every request failing, a validation from the
unauthenticated state fails and holds no handle; retrying against a
working server succeeds. -/
theorem C9_login_failure_witness :
    (async_validate_session envAllErr 0 0 stNoSession).1 = false ∧
    (async_validate_session envAllErr 0 0 stNoSession).2.1.session = none ∧
    (async_validate_session envAllOk 5 5
        (async_validate_session envAllErr 0 0 stNoSession).2.1).1 = true := by
  have h := C9_login_failure_is_not_terminal envAllErr 0 0 stNoSession (Or.inl rfl) rfl
  exact ⟨h.1, h.2.1, (h.2.2 envAllOk 5 5).1⟩

theorem async_validate_session_trace_no_data (env : Env) (now1 now2 : ℤ)
    (st : EdpRedySession) :
    ∀ r ∈ (async_validate_session env now1 now2 st).2.2, r.isDataRequest = false := by
  rcases async_validate_session_cases env now1 now2 st with ⟨_, _, h⟩ | ⟨_, h⟩
  · rw [h]; intro r hr; cases hr
  · rw [h]
    intro r hr
    simp only [List.mem_append] at hr
    rcases hr with hr | hr
    · split at hr
      · cases hr
      · simp at hr; subst hr; rfl
    · rcases async_init_session_trace env with h2 | h2
      · rw [h2] at hr; simp at hr; subst hr; rfl
      · rw [h2] at hr; simp at hr
        rcases hr with hr | hr <;> subst hr <;> rfl

theorem fetch_power_of_validate_false (env : Env) (now1 now2 : ℤ)
    (st st1 : EdpRedySession) (tr : List HttpReq)
    (h : async_validate_session env now1 now2 st = (false, st1, tr)) :
    async_fetch_active_power env now1 now2 st = (.ok false, st1, tr) := by
  unfold async_fetch_active_power
  rw [h]

theorem fetch_modules_of_validate_false (env : Env) (now1 now2 : ℤ)
    (st st1 : EdpRedySession) (tr : List HttpReq)
    (h : async_validate_session env now1 now2 st = (false, st1, tr)) :
    async_fetch_modules env now1 now2 st = (.ok false, st1, tr) := by
  unfold async_fetch_modules
  rw [h]

theorem set_state_var_of_validate_false (env : Env) (now1 now2 : ℤ) (payload : Json)
    (st st1 : EdpRedySession) (tr : List HttpReq)
    (h : async_validate_session env now1 now2 st = (false, st1, tr)) :
    async_set_state_var env now1 now2 payload st = (.ok false, st1, tr) := by
  unfold async_set_state_var
  rw [h]

theorem fetch_power_trace_of_validate_true (env : Env) (now1 now2 : ℤ)
    (st st1 : EdpRedySession) (tr : List HttpReq)
    (h : async_validate_session env now1 now2 st = (true, st1, tr)) :
    (async_fetch_active_power env now1 now2 st).2.2 = tr ++ [HttpReq.postActivePower] := by
  unfold async_fetch_active_power
  rw [h]
  dsimp only
  cases env HttpReq.postActivePower with
  | err => rfl
  | ok status body =>
    dsimp only
    split
    · rfl
    · cases body with
      | none => rfl
      | some updated =>
        dsimp only
        cases extractBodyField "ActivePower" updated with
        | error e => rfl
        | ok o =>
          cases o with
          | none => rfl
          | some ap =>
            dsimp only
            cases pyMul1000 ap with
            | ok v => rfl
            | error e => cases e <;> rfl

theorem fetch_modules_trace_of_validate_true (env : Env) (now1 now2 : ℤ)
    (st st1 : EdpRedySession) (tr : List HttpReq)
    (h : async_validate_session env now1 now2 st = (true, st1, tr)) :
    (async_fetch_modules env now1 now2 st).2.2 = tr ++ [HttpReq.postSwitchModules] := by
  unfold async_fetch_modules
  rw [h]
  dsimp only
  cases env HttpReq.postSwitchModules with
  | err => rfl
  | ok status body =>
    dsimp only
    split
    · rfl
    · cases body with
      | none => rfl
      | some updated =>
        dsimp only
        cases extractBodyField "Modules" updated with
        | error e => rfl
        | ok o =>
          cases o with
          | none => rfl
          | some mods =>
            dsimp only
            cases mods.pyIter with
            | error e => rfl
            | ok ms =>
              dsimp only
              rcases updateModules ms st1.modules_dict with ⟨d, merr⟩
              cases merr <;> rfl

theorem set_state_var_trace_of_validate_true (env : Env) (now1 now2 : ℤ) (payload : Json)
    (st st1 : EdpRedySession) (tr : List HttpReq)
    (h : async_validate_session env now1 now2 st = (true, st1, tr)) :
    (async_set_state_var env now1 now2 payload st).2.2 =
      tr ++ [HttpReq.postSetStateVar payload] := by
  unfold async_set_state_var
  rw [h]
  dsimp only
  cases env (HttpReq.postSetStateVar payload) with
  | err => rfl
  | ok status body =>
    dsimp only
    split <;> rfl

/-- Claim C1: no operation issues a data/command request before
validation has produced an active session.  The requests
`async_validate_session` itself issues are never data requests; when
validation returns `False`, each of the three operations returns `False`
with exactly validation's requests (no request of its own); when
validation returns `True`, each operation's trace is validation's
requests followed by its single data request — so every data request
comes after a successful validation. -/
theorem C1_ops_gated_by_validation (env : Env) (now1 now2 : ℤ)
    (st : EdpRedySession) (payload : Json) :
    (∀ r ∈ (async_validate_session env now1 now2 st).2.2, r.isDataRequest = false) ∧
    ((async_validate_session env now1 now2 st).1 = false →
      async_fetch_active_power env now1 now2 st =
        (.ok false, (async_validate_session env now1 now2 st).2.1,
         (async_validate_session env now1 now2 st).2.2) ∧
      async_fetch_modules env now1 now2 st =
        (.ok false, (async_validate_session env now1 now2 st).2.1,
         (async_validate_session env now1 now2 st).2.2) ∧
      async_set_state_var env now1 now2 payload st =
        (.ok false, (async_validate_session env now1 now2 st).2.1,
         (async_validate_session env now1 now2 st).2.2)) ∧
    ((async_validate_session env now1 now2 st).1 = true →
      (async_fetch_active_power env now1 now2 st).2.2 =
        (async_validate_session env now1 now2 st).2.2 ++ [HttpReq.postActivePower] ∧
      (async_fetch_modules env now1 now2 st).2.2 =
        (async_validate_session env now1 now2 st).2.2 ++ [HttpReq.postSwitchModules] ∧
      (async_set_state_var env now1 now2 payload st).2.2 =
        (async_validate_session env now1 now2 st).2.2 ++ [HttpReq.postSetStateVar payload]) := by
  refine ⟨async_validate_session_trace_no_data env now1 now2 st, ?_, ?_⟩
  · intro hv
    have h : async_validate_session env now1 now2 st =
        (false, (async_validate_session env now1 now2 st).2.1,
         (async_validate_session env now1 now2 st).2.2) := by
      rw [← hv]
    exact ⟨fetch_power_of_validate_false env now1 now2 st _ _ h,
           fetch_modules_of_validate_false env now1 now2 st _ _ h,
           set_state_var_of_validate_false env now1 now2 payload st _ _ h⟩
  · intro hv
    have h : async_validate_session env now1 now2 st =
        (true, (async_validate_session env now1 now2 st).2.1,
         (async_validate_session env now1 now2 st).2.2) := by
      rw [← hv]
    exact ⟨fetch_power_trace_of_validate_true env now1 now2 st _ _ h,
           fetch_modules_trace_of_validate_true env now1 now2 st _ _ h,
           set_state_var_trace_of_validate_true env now1 now2 payload st _ _ h⟩

/-- Witness for C1: with every request failing at the transport level,
validation from the unauthenticated state fails and all three operations
return failure having issued only validation's (login-page) request. -/
theorem C1_ops_gated_witness :
    async_fetch_active_power envAllErr 0 0 stNoSession =
      (.ok false, (async_validate_session envAllErr 0 0 stNoSession).2.1,
       (async_validate_session envAllErr 0 0 stNoSession).2.2) ∧
    async_fetch_modules envAllErr 0 0 stNoSession =
      (.ok false, (async_validate_session envAllErr 0 0 stNoSession).2.1,
       (async_validate_session envAllErr 0 0 stNoSession).2.2) ∧
    async_set_state_var envAllErr 0 0 Json.null stNoSession =
      (.ok false, (async_validate_session envAllErr 0 0 stNoSession).2.1,
       (async_validate_session envAllErr 0 0 stNoSession).2.2) :=
  (C1_ops_gated_by_validation envAllErr 0 0 stNoSession Json.null).2.1 rfl

theorem fetch_power_preserves_modules (env : Env) (now1 now2 : ℤ) (st : EdpRedySession) :
    (async_fetch_active_power env now1 now2 st).2.1.modules_dict = st.modules_dict := by
  have hpres := (async_validate_session_preserves_dicts env now1 now2 st).1
  rcases hV : async_validate_session env now1 now2 st with ⟨v, st1, tr⟩
  rw [hV] at hpres
  unfold async_fetch_active_power
  rw [hV]
  cases v with
  | false => exact hpres
  | true =>
    dsimp only
    cases env HttpReq.postActivePower with
    | err => exact hpres
    | ok status body =>
      dsimp only
      split
      · exact hpres
      · cases body with
        | none => exact hpres
        | some updated =>
          dsimp only
          cases extractBodyField "ActivePower" updated with
          | error e => exact hpres
          | ok o =>
            cases o with
            | none => exact hpres
            | some ap =>
              dsimp only
              cases pyMul1000 ap with
              | ok v2 => exact hpres
              | error e => cases e <;> exact hpres

/-- Claim C3: `async_update` runs the module fetch first and the power
fetch second (the power fetch starts from the module fetch's state), its
result is the conjunction of the two results, and since the power fetch
never touches `modules_dict`, a successful module fetch followed by a
failing power fetch leaves the module mapping as the module fetch wrote
it while the call reports failure. -/
theorem C3_update_both_fetches (env : Env) (t1 t2 t3 t4 : ℤ)
    (st st1 st2 : EdpRedySession) (m p : Bool) (tr1 tr2 : List HttpReq)
    (h1 : async_fetch_modules env t1 t2 st = (.ok m, st1, tr1))
    (h2 : async_fetch_active_power env t3 t4 st1 = (.ok p, st2, tr2)) :
    async_update env t1 t2 t3 t4 st = (.ok (m && p), st2, tr1 ++ tr2) ∧
    st2.modules_dict = st1.modules_dict := by
  constructor
  · unfold async_update
    rw [h1]
    dsimp only
    rw [h2]
  · have hpm := fetch_power_preserves_modules env t3 t4 st1
    rw [h2] at hpm
    exact hpm

/-- Witness for C3: the module fetch succeeds with an empty module list
while the power request dies on the transport; the combined update
reports failure yet keeps the module fetch's mapping. -/
theorem C3_update_witness :
    async_update envC3 0 0 0 0 stNoSession =
      (.ok false,
       (async_fetch_active_power envC3 0 0 (async_fetch_modules envC3 0 0 stNoSession).2.1).2.1,
       (async_fetch_modules envC3 0 0 stNoSession).2.2 ++
         (async_fetch_active_power envC3 0 0 (async_fetch_modules envC3 0 0 stNoSession).2.1).2.2) ∧
    (async_fetch_active_power envC3 0 0
        (async_fetch_modules envC3 0 0 stNoSession).2.1).2.1.modules_dict =
      (async_fetch_modules envC3 0 0 stNoSession).2.1.modules_dict :=
  C3_update_both_fetches envC3 0 0 0 0 stNoSession _ _ true false _ _ rfl rfl

/-! ### The module-map update loop: characterization and idempotence -/

theorem updateModules_cons_ok (m : Json) (ms : List Json) (d : HKey → Option Json)
    (k : HKey) (h : pkidOf m = .ok k) :
    updateModules (m :: ms) d = updateModules ms (insertModule k m d) := by
  simp only [updateModules, h]

theorem updateModules_cons_err (m : Json) (ms : List Json) (d : HKey → Option Json)
    (e : PyError) (h : pkidOf m = .error e) :
    updateModules (m :: ms) d = (d, some e) := by
  simp only [updateModules, h]

theorem goodPairs_cons_ok (m : Json) (ms : List Json) (k : HKey) (h : pkidOf m = .ok k) :
    goodPairs (m :: ms) = (k, m) :: goodPairs ms := by
  simp only [goodPairs, h]

theorem goodPairs_cons_err (m : Json) (ms : List Json) (e : PyError)
    (h : pkidOf m = .error e) : goodPairs (m :: ms) = [] := by
  simp only [goodPairs, h]

theorem updateModules_fst_eq (ms : List Json) :
    ∀ d, (updateModules ms d).1 = applyPairs (goodPairs ms) d := by
  induction ms with
  | nil => intro d; rfl
  | cons m ms ih =>
    intro d
    cases h : pkidOf m with
    | error e => rw [updateModules_cons_err m ms d e h, goodPairs_cons_err m ms e h]; rfl
    | ok k => rw [updateModules_cons_ok m ms d k h, goodPairs_cons_ok m ms k h, ih]; rfl

theorem applyPairs_apply (ps : List (HKey × Json)) :
    ∀ (d : HKey → Option Json) (k : HKey),
      applyPairs ps d k =
        match lastVal ps k with
        | some v => some v
        | none => d k := by
  induction ps with
  | nil => intro d k; rfl
  | cons p rest ih =>
    intro d k
    show applyPairs rest (insertModule p.1 p.2 d) k = _
    rw [ih]
    cases hl : lastVal rest k with
    | some v => simp [lastVal, hl]
    | none =>
      simp only [lastVal, hl]
      by_cases hk : k = p.1
      · simp [insertModule, hk]
      · simp [insertModule, hk]

/-- Claim C7: running the module-storing loop twice on the same fetched
module list yields the same `modules_dict` as running it once, for every
fetch result and every starting mapping (this also covers lists on which
the loop raises partway: the second run stops at the same element having
re-written the same entries). -/
theorem C7_module_update_idempotent (ms : List Json) (d : HKey → Option Json) :
    (updateModules ms (updateModules ms d).1).1 = (updateModules ms d).1 := by
  funext k
  rw [updateModules_fst_eq, updateModules_fst_eq, applyPairs_apply, applyPairs_apply]
  cases hl : lastVal (goodPairs ms) k with
  | some v => rfl
  | none => rfl

theorem updateModules_lookup (ms : List Json) :
    ∀ (d : HKey → Option Json) (k : HKey), (updateModules ms d).2 = none →
      (updateModules ms d).1 k =
        match lastModule ms k with
        | some v => some v
        | none => d k := by
  induction ms with
  | nil => intro d k _; rfl
  | cons m ms ih =>
    intro d k hok
    cases h : pkidOf m with
    | error e =>
      rw [updateModules_cons_err m ms d e h] at hok
      cases hok
    | ok k2 =>
      rw [updateModules_cons_ok m ms d k2 h] at hok ⊢
      rw [ih _ k hok]
      cases hl : lastModule ms k with
      | some v => simp [lastModule, hl]
      | none =>
        by_cases hk : k2 = k
        · subst hk
          simp [lastModule, hl, h, insertModule]
        · have hk2 : ¬ k = k2 := fun hh => hk hh.symm
          simp [lastModule, hl, h, insertModule, hk, hk2]

theorem lastModule_eq_none (ms : List Json) (k : HKey)
    (h : ∀ m ∈ ms, pkidOf m ≠ .ok k) : lastModule ms k = none := by
  induction ms with
  | nil => rfl
  | cons m ms ih =>
    have hm : lastModule ms k = none := ih (fun m2 hm2 => h m2 (List.mem_cons_of_mem _ hm2))
    cases hp : pkidOf m with
    | error e => simp [lastModule, hm, hp]
    | ok k2 =>
      have hk2 : k2 ≠ k := fun hh => h m (List.mem_cons_self m ms) (by rw [hp, hh])
      simp [lastModule, hm, hp, hk2]

theorem lastModule_mem (ms : List Json) (k : HKey) :
    ∀ v, lastModule ms k = some v → v ∈ ms ∧ pkidOf v = .ok k := by
  induction ms with
  | nil => intro v h; cases h
  | cons m ms ih =>
    intro v h
    cases hl : lastModule ms k with
    | some w =>
      simp only [lastModule, hl] at h
      injection h with h2
      subst h2
      obtain ⟨hmem, hpk⟩ := ih w hl
      exact ⟨List.mem_cons_of_mem _ hmem, hpk⟩
    | none =>
      simp only [lastModule, hl] at h
      cases hp : pkidOf m with
      | error e => simp [hp] at h
      | ok k2 =>
        by_cases hk : k2 = k
        · subst hk
          simp [hp] at h
          subst h
          exact ⟨List.mem_cons_self m ms, hp⟩
        · simp [hp, hk] at h

theorem lastModule_ne_none_of_mem (ms : List Json) (k : HKey) (m : Json)
    (hm : m ∈ ms) (hp : pkidOf m = .ok k) : lastModule ms k ≠ none := by
  induction ms with
  | nil => cases hm
  | cons m2 ms ih =>
    cases hl : lastModule ms k with
    | some v => simp [lastModule, hl]
    | none =>
      rcases List.mem_cons.mp hm with heq | hm2
      · subst heq
        simp [lastModule, hl, hp]
      · exact absurd hl (ih hm2)

/-- Claim C6: when the module-storing loop completes without an error, it
replaces, for every module of the response, the entry stored under that
module's `PKID` (the stored entry is some response module carrying that
key), and leaves every key no response module carries unchanged.
Concretely: after fetching modules `"A"` and `"B"` and then fetching only
an updated `"A"`, the mapping holds the updated `"A"` and the original
`"B"`. -/
theorem C6_module_merge_per_key :
    (∀ (ms : List Json) (d : HKey → Option Json) (k : HKey),
      (updateModules ms d).2 = none →
      ((∀ m ∈ ms, pkidOf m ≠ .ok k) → (updateModules ms d).1 k = d k) ∧
      (∀ m ∈ ms, pkidOf m = .ok k →
        ∃ m2, m2 ∈ ms ∧ pkidOf m2 = .ok k ∧ (updateModules ms d).1 k = some m2)) ∧
    (stAfterA2.modules_dict (HKey.str "A") = some modA2 ∧
     stAfterA2.modules_dict (HKey.str "B") = some modB) := by
  constructor
  · intro ms d k hok
    constructor
    · intro habs
      rw [updateModules_lookup ms d k hok, lastModule_eq_none ms k habs]
    · intro m hm hp
      cases hl : lastModule ms k with
      | none => exact absurd hl (lastModule_ne_none_of_mem ms k m hm hp)
      | some v =>
        obtain ⟨hmem, hpk⟩ := lastModule_mem ms k v hl
        refine ⟨v, hmem, hpk, ?_⟩
        rw [updateModules_lookup ms d k hok, hl]
  · exact ⟨rfl, rfl⟩

/-- Witness for C6: for the singleton response `[modA]` the stored entry
under key `"A"` is a response module with that key. -/
theorem C6_module_merge_witness :
    ∃ m2, m2 ∈ [modA] ∧ pkidOf m2 = .ok (HKey.str "A") ∧
      (updateModules [modA] emptyModulesDict).1 (HKey.str "A") = some m2 :=
  ((C6_module_merge_per_key.1 [modA] emptyModulesDict (HKey.str "A") rfl).2 modA
    (List.mem_singleton.mpr rfl) rfl)

/-! ### Body parsing: evaluation lemmas -/

theorem any_key_eq_of_find (kvs : List (String × Json)) (key : String) :
    kvs.any (fun kv => kv.1 = key) = (kvs.find? (fun kv => kv.1 = key)).isSome := by
  induction kvs with
  | nil => rfl
  | cons kv rest ih =>
    simp only [List.any_cons, List.find?_cons]
    by_cases h : kv.1 = key
    · simp [h]
    · simp [h, ih]

theorem extract_no_body (field : String) (kvs : List (String × Json))
    (h : kvs.find? (fun kv => kv.1 = "Body") = none) :
    extractBodyField field (Json.obj kvs) = .ok none := by
  have hany : kvs.any (fun kv => kv.1 = "Body") = false := by
    rw [any_key_eq_of_find, h]; rfl
  simp [extractBodyField, Json.containsStr, hany]

theorem extract_no_field (field : String) (kvs kvs2 : List (String × Json))
    (hb : kvs.find? (fun kv => kv.1 = "Body") = some ("Body", Json.obj kvs2))
    (h2 : kvs2.find? (fun kv => kv.1 = field) = none) :
    extractBodyField field (Json.obj kvs) = .ok none := by
  have hany : kvs.any (fun kv => kv.1 = "Body") = true := by
    rw [any_key_eq_of_find, hb]; rfl
  have hany2 : kvs2.any (fun kv => kv.1 = field) = false := by
    rw [any_key_eq_of_find, h2]; rfl
  simp [extractBodyField, Json.containsStr, Json.subscript, hany, hb, hany2]

theorem extract_found (field : String) (kvs kvs2 : List (String × Json)) (v : Json)
    (hb : kvs.find? (fun kv => kv.1 = "Body") = some ("Body", Json.obj kvs2))
    (hf : kvs2.find? (fun kv => kv.1 = field) = some (field, v)) :
    extractBodyField field (Json.obj kvs) = .ok (some v) := by
  have hany : kvs.any (fun kv => kv.1 = "Body") = true := by
    rw [any_key_eq_of_find, hb]; rfl
  have hany2 : kvs2.any (fun kv => kv.1 = field) = true := by
    rw [any_key_eq_of_find, hf]; rfl
  simp [extractBodyField, Json.containsStr, Json.subscript, hany, hb, hany2, hf]

theorem fetch_power_of_body (env : Env) (now1 now2 : ℤ) (st st1 : EdpRedySession)
    (tr : List HttpReq) (updated : Json)
    (hV : async_validate_session env now1 now2 st = (true, st1, tr))
    (henv : env HttpReq.postActivePower = HttpOutcome.ok 200 (some updated)) :
    async_fetch_active_power env now1 now2 st =
      (match extractBodyField "ActivePower" updated with
       | .error e => (.error e, st1, tr ++ [HttpReq.postActivePower])
       | .ok none => (.ok false, st1, tr ++ [HttpReq.postActivePower])
       | .ok (some ap) =>
         match pyMul1000 ap with
         | .ok v =>
           (.ok true, { st1 with values_dict := setValue ACTIVE_POWER_ID v st1.values_dict },
            tr ++ [HttpReq.postActivePower])
         | .error .valueError =>
           (.ok true,
            { st1 with values_dict := setValue ACTIVE_POWER_ID Json.null st1.values_dict },
            tr ++ [HttpReq.postActivePower])
         | .error e => (.error e, st1, tr ++ [HttpReq.postActivePower])) := by
  unfold async_fetch_active_power
  rw [hV]
  dsimp only
  rw [henv]
  simp

theorem fetch_modules_of_body (env : Env) (now1 now2 : ℤ) (st st1 : EdpRedySession)
    (tr : List HttpReq) (updated : Json)
    (hV : async_validate_session env now1 now2 st = (true, st1, tr))
    (henv : env HttpReq.postSwitchModules = HttpOutcome.ok 200 (some updated)) :
    async_fetch_modules env now1 now2 st =
      (match extractBodyField "Modules" updated with
       | .error e => (.error e, st1, tr ++ [HttpReq.postSwitchModules])
       | .ok none => (.ok false, st1, tr ++ [HttpReq.postSwitchModules])
       | .ok (some mods) =>
         match mods.pyIter with
         | .error e => (.error e, st1, tr ++ [HttpReq.postSwitchModules])
         | .ok ms =>
           match updateModules ms st1.modules_dict with
           | (d, some e) =>
             (.error e, { st1 with modules_dict := d }, tr ++ [HttpReq.postSwitchModules])
           | (d, none) =>
             (.ok true, { st1 with modules_dict := d }, tr ++ [HttpReq.postSwitchModules])) := by
  unfold async_fetch_modules
  rw [hV]
  dsimp only
  rw [henv]
  simp

theorem fetch_power_body_none (env : Env) (now1 now2 : ℤ) (st st1 : EdpRedySession)
    (tr : List HttpReq)
    (hV : async_validate_session env now1 now2 st = (true, st1, tr))
    (henv : env HttpReq.postActivePower = HttpOutcome.ok 200 none) :
    async_fetch_active_power env now1 now2 st =
      (.ok false, st1, tr ++ [HttpReq.postActivePower]) := by
  unfold async_fetch_active_power
  rw [hV]
  dsimp only
  rw [henv]
  simp

theorem fetch_modules_body_none (env : Env) (now1 now2 : ℤ) (st st1 : EdpRedySession)
    (tr : List HttpReq)
    (hV : async_validate_session env now1 now2 st = (true, st1, tr))
    (henv : env HttpReq.postSwitchModules = HttpOutcome.ok 200 none) :
    async_fetch_modules env now1 now2 st =
      (.ok false, st1, tr ++ [HttpReq.postSwitchModules]) := by
  unfold async_fetch_modules
  rw [hV]
  dsimp only
  rw [henv]
  simp

theorem fetch_power_clean_false (env : Env) (now1 now2 : ℤ) (st : EdpRedySession)
    (h : env HttpReq.postActivePower = HttpOutcome.ok 200 none ∨
         ∃ updated, env HttpReq.postActivePower = HttpOutcome.ok 200 (some updated) ∧
           extractBodyField "ActivePower" updated = .ok none) :
    (async_fetch_active_power env now1 now2 st).1 = .ok false ∧
    (async_fetch_active_power env now1 now2 st).2.1.values_dict = st.values_dict := by
  have hvals := (async_validate_session_preserves_dicts env now1 now2 st).2
  rcases hV : async_validate_session env now1 now2 st with ⟨v, st1, tr⟩
  rw [hV] at hvals
  cases v with
  | false =>
    rw [fetch_power_of_validate_false env now1 now2 st st1 tr hV]
    exact ⟨rfl, hvals⟩
  | true =>
    rcases h with h | ⟨updated, henv, hex⟩
    · rw [fetch_power_body_none env now1 now2 st st1 tr hV h]
      exact ⟨rfl, hvals⟩
    · rw [fetch_power_of_body env now1 now2 st st1 tr updated hV henv, hex]
      exact ⟨rfl, hvals⟩

theorem fetch_modules_clean_false (env : Env) (now1 now2 : ℤ) (st : EdpRedySession)
    (h : env HttpReq.postSwitchModules = HttpOutcome.ok 200 none ∨
         ∃ updated, env HttpReq.postSwitchModules = HttpOutcome.ok 200 (some updated) ∧
           extractBodyField "Modules" updated = .ok none) :
    (async_fetch_modules env now1 now2 st).1 = .ok false ∧
    (async_fetch_modules env now1 now2 st).2.1.modules_dict = st.modules_dict := by
  have hmods := (async_validate_session_preserves_dicts env now1 now2 st).1
  rcases hV : async_validate_session env now1 now2 st with ⟨v, st1, tr⟩
  rw [hV] at hmods
  cases v with
  | false =>
    rw [fetch_modules_of_validate_false env now1 now2 st st1 tr hV]
    exact ⟨rfl, hmods⟩
  | true =>
    rcases h with h | ⟨updated, henv, hex⟩
    · rw [fetch_modules_body_none env now1 now2 st st1 tr hV h]
      exact ⟨rfl, hmods⟩
    · rw [fetch_modules_of_body env now1 now2 st st1 tr updated hV henv, hex]
      exact ⟨rfl, hmods⟩

/-- Claim C4 (amended): a response whose text is not valid JSON, or whose
decoded value is a JSON object without a `"Body"` member, or a JSON
object whose `"Body"` member is an object without the expected field
(`"ActivePower"` for the power fetch, `"Modules"` for the module fetch),
makes that fetch return `False` without an uncaught exception and leaves
the corresponding stored dictionary unchanged.  (As stated over *all*
well-formed JSON the claim is false: a non-object `Body` member makes the
membership test raise an uncaught `TypeError` — see the
counterexample.) -/
theorem C4_bad_body_rejected (env : Env) (now1 now2 : ℤ) (st : EdpRedySession)
    (kvs kvs2 : List (String × Json)) :
    (env HttpReq.postActivePower = HttpOutcome.ok 200 none →
      (async_fetch_active_power env now1 now2 st).1 = .ok false ∧
      (async_fetch_active_power env now1 now2 st).2.1.values_dict = st.values_dict) ∧
    (env HttpReq.postActivePower = HttpOutcome.ok 200 (some (Json.obj kvs)) →
      kvs.find? (fun kv => kv.1 = "Body") = none →
      (async_fetch_active_power env now1 now2 st).1 = .ok false ∧
      (async_fetch_active_power env now1 now2 st).2.1.values_dict = st.values_dict) ∧
    (env HttpReq.postActivePower = HttpOutcome.ok 200 (some (Json.obj kvs)) →
      kvs.find? (fun kv => kv.1 = "Body") = some ("Body", Json.obj kvs2) →
      kvs2.find? (fun kv => kv.1 = "ActivePower") = none →
      (async_fetch_active_power env now1 now2 st).1 = .ok false ∧
      (async_fetch_active_power env now1 now2 st).2.1.values_dict = st.values_dict) ∧
    (env HttpReq.postSwitchModules = HttpOutcome.ok 200 none →
      (async_fetch_modules env now1 now2 st).1 = .ok false ∧
      (async_fetch_modules env now1 now2 st).2.1.modules_dict = st.modules_dict) ∧
    (env HttpReq.postSwitchModules = HttpOutcome.ok 200 (some (Json.obj kvs)) →
      kvs.find? (fun kv => kv.1 = "Body") = none →
      (async_fetch_modules env now1 now2 st).1 = .ok false ∧
      (async_fetch_modules env now1 now2 st).2.1.modules_dict = st.modules_dict) ∧
    (env HttpReq.postSwitchModules = HttpOutcome.ok 200 (some (Json.obj kvs)) →
      kvs.find? (fun kv => kv.1 = "Body") = some ("Body", Json.obj kvs2) →
      kvs2.find? (fun kv => kv.1 = "Modules") = none →
      (async_fetch_modules env now1 now2 st).1 = .ok false ∧
      (async_fetch_modules env now1 now2 st).2.1.modules_dict = st.modules_dict) :=
  ⟨fun h => fetch_power_clean_false env now1 now2 st (Or.inl h),
   fun h hf => fetch_power_clean_false env now1 now2 st
     (Or.inr ⟨_, h, extract_no_body "ActivePower" kvs hf⟩),
   fun h hb h2 => fetch_power_clean_false env now1 now2 st
     (Or.inr ⟨_, h, extract_no_field "ActivePower" kvs kvs2 hb h2⟩),
   fun h => fetch_modules_clean_false env now1 now2 st (Or.inl h),
   fun h hf => fetch_modules_clean_false env now1 now2 st
     (Or.inr ⟨_, h, extract_no_body "Modules" kvs hf⟩),
   fun h hb h2 => fetch_modules_clean_false env now1 now2 st
     (Or.inr ⟨_, h, extract_no_field "Modules" kvs kvs2 hb h2⟩)⟩

/-- Counterexample to C4 as stated: `{"Body": 5}` is well-formed JSON in
which `Body.ActivePower` does not exist, yet the power fetch does not
return failure — the membership test `"ActivePower" not in 5` raises an
uncaught `TypeError`. -/
theorem C4_nonobject_body_raises :
    (async_fetch_active_power envBadPower 0 0 stFresh).1 =
      Except.error PyError.typeError := rfl

/-- Witness for C4 (amended): a non-JSON body makes both fetches return
`False` and leaves both dictionaries untouched. -/
theorem C4_bad_body_witness :
    (async_fetch_active_power envAllOk 0 0 stFresh).1 = .ok false ∧
    (async_fetch_active_power envAllOk 0 0 stFresh).2.1.values_dict = stFresh.values_dict ∧
    (async_fetch_modules envAllOk 0 0 stFresh).1 = .ok false ∧
    (async_fetch_modules envAllOk 0 0 stFresh).2.1.modules_dict = stFresh.modules_dict := by
  obtain ⟨hp, _, _, hm, _, _⟩ := C4_bad_body_rejected envAllOk 0 0 stFresh [] []
  exact ⟨(hp rfl).1, (hp rfl).2, (hm rfl).1, (hm rfl).2⟩

/-- Claim C5, code behavior: with `Body.ActivePower` present but `null`,
the conversion `None * 1000` raises a `TypeError` that the
`except ValueError` handler does not catch — the fetch raises instead of
storing the "unknown" marker and succeeding; and no input to the
conversion can raise a `ValueError` at all, so the handler is
unreachable.  (This contradicts the claim, which expects every
conversion failure to be caught; the handler's own log message shows the
claim matches the intent, so the code is the bug.) -/
theorem C5_conversion_error_not_caught :
    ((async_fetch_active_power envNullPower 0 0 stFresh).1 =
        Except.error PyError.typeError ∧
     (async_fetch_active_power envNullPower 0 0 stFresh).2.1.values_dict =
        stFresh.values_dict) ∧
    (∀ j : Json, pyMul1000 j ≠ Except.error PyError.valueError) := by
  refine ⟨⟨rfl, rfl⟩, ?_⟩
  intro j
  cases j with
  | null => exact fun h => PyError.noConfusion (Except.error.inj h)
  | bool b => exact fun h => Except.noConfusion h
  | num q => exact fun h => Except.noConfusion h
  | str s => exact fun h => Except.noConfusion h
  | arr l => exact fun h => Except.noConfusion h
  | obj kvs => exact fun h => PyError.noConfusion (Except.error.inj h)

/-- Claim C8: a successful power fetch stores exactly the server's
`Body.ActivePower` value multiplied by 1000 under `ACTIVE_POWER_ID`; in
particular a response of `{"Body":{"ActivePower": 1.5}}` stores 1500. -/
theorem C8_power_scaled_by_1000 (env : Env) (now1 now2 : ℤ) (st : EdpRedySession)
    (kvs kvs2 : List (String × Json)) (q : ℚ)
    (hV : (async_validate_session env now1 now2 st).1 = true)
    (henv : env HttpReq.postActivePower = HttpOutcome.ok 200 (some (Json.obj kvs)))
    (hb : kvs.find? (fun kv => kv.1 = "Body") = some ("Body", Json.obj kvs2))
    (hf : kvs2.find? (fun kv => kv.1 = "ActivePower") = some ("ActivePower", Json.num q)) :
    ((async_fetch_active_power env now1 now2 st).1 = .ok true ∧
     (async_fetch_active_power env now1 now2 st).2.1.values_dict ACTIVE_POWER_ID =
       some (Json.num (q * 1000))) ∧
    (async_fetch_active_power envPower15 0 0 stFresh).2.1.values_dict ACTIVE_POWER_ID =
      some (Json.num 1500) := by
  constructor
  · have hVt : async_validate_session env now1 now2 st =
        (true, (async_validate_session env now1 now2 st).2.1,
         (async_validate_session env now1 now2 st).2.2) := by
      rw [← hV]
    rw [fetch_power_of_body env now1 now2 st _ _ (Json.obj kvs) hVt henv,
        extract_found "ActivePower" kvs kvs2 (Json.num q) hb hf]
    exact ⟨rfl, by simp [setValue, pyMul1000]⟩
  · have h15 : (async_fetch_active_power envPower15 0 0 stFresh).2.1.values_dict
        ACTIVE_POWER_ID = some (Json.num ((3 / 2 : ℚ) * 1000)) := rfl
    rw [h15]
    norm_num

/-- Witness for C8: a response carrying `ActivePower = 2` succeeds and
stores `2 * 1000`. -/
theorem C8_power_scaled_witness :
    (async_fetch_active_power envPower2 0 0 stFresh).1 = .ok true ∧
    (async_fetch_active_power envPower2 0 0 stFresh).2.1.values_dict ACTIVE_POWER_ID =
      some (Json.num (2 * 1000)) :=
  (C8_power_scaled_by_1000 envPower2 0 0 stFresh
    [("Body", Json.obj [("ActivePower", Json.num 2)])] [("ActivePower", Json.num 2)] 2
    rfl rfl rfl rfl).1

end EdpRedy
